import Mathlib

/-!
# Verification of `bin/sync_nodes.py` (repository `nuciluc/sync_nodes`)

A shallow embedding of the orchestration core of `sync_nodes.py`: option
parsing, the `mylog` logging helper, configuration defaulting, folder
selector resolution, command construction, and the node/folder/service
control loop.  Stateful behaviour (log records, external command
invocations, sleeps) is modelled as an explicit event trace; external
command outcomes are supplied by an oracle `exec : String → ExecResult`.
-/

namespace SyncNodes

/-- Python `logging` levels used by the script (`logging.debug/info/error`). -/
inductive Level where
  | debug
  | info
  | error
deriving DecidableEq, Repr

/-- Numeric value of a level in the Python `logging` module
(`DEBUG = 10`, `INFO = 20`, `ERROR = 40`). -/
def levelNum : Level → Nat
  | Level.debug => 10
  | Level.info => 20
  | Level.error => 40

/-- Numeric threshold corresponding to the `log_level` string handed to
`logging.basicConfig(level = log_level)` at line 129. -/
def levelThreshold : String → Nat
  | "DEBUG" => 10
  | "ERROR" => 40
  | _ => 20

/-- The mutable option state set up at lines 67-90 of the script:
`log_level`, `debug`, `foreground`, `quiet`. -/
structure Opts where
  loglevel : String
  debug : Bool
  foreground : Bool
  quiet : Bool
deriving DecidableEq, Repr

/-- Defaults at lines 68-69: `log_level = "INFO"`,
`debug = foreground = quiet = False`. -/
def defaultOpts : Opts :=
  { loglevel := "INFO", debug := false, foreground := false, quiet := false }

/-- One iteration of the option loop (lines 72-90) for a single flag.
The four `if` statements of the loop body are sequential and independent.
(The `-h` and `-c` branches terminate the process or set the settings
path and do not touch these four variables.) -/
def applyOpt (o : Opts) (flag : String) : Opts :=
  let o1 := if flag = "-d" || flag = "--debug"
    then { o with loglevel := "DEBUG", debug := true } else o
  let o2 := if flag = "-f" || flag = "--foreground"
    then { o1 with foreground := true } else o1
  if flag = "-q" || flag = "--quiet"
    then { o2 with loglevel := "ERROR", quiet := true } else o2

/-- The whole option loop over the parsed flag list. -/
def parseOpts (flags : List String) : Opts :=
  flags.foldl applyOpt defaultOpts

/-- A call into the Python `logging` module at level `lvl`: the message is
written to the persistent log file iff its numeric level reaches the
threshold configured by `logging.basicConfig` (line 129). -/
def loggingCall (threshold : Nat) (lvl : Level) (msg : String) :
    Option (Level × String) :=
  if threshold ≤ levelNum lvl then some (lvl, msg) else none

/-- The level a `mylog` string argument maps to: `"info"` and `"error"`
go to `logging.info` / `logging.error`, anything else to `logging.debug`
(the `else` branches at lines 99-100 and 109-110). -/
def pyLevel (level : String) : Level :=
  if level = "info" then Level.info
  else if level = "error" then Level.error
  else Level.debug

/-- `mylog(debug, foreground, quiet, level, message)` (lines 93-112).
Returns the record appended to the persistent log (if any, after the
logging module's threshold filter) and whether the message is echoed to
the console via `print`. -/
def mylog (threshold : Nat) (debug foreground quiet : Bool)
    (level message : String) : Option (Level × String) × Bool :=
  if !foreground then
    if level = "info" then (loggingCall threshold Level.info message, false)
    else if level = "error" then (loggingCall threshold Level.error message, false)
    else (loggingCall threshold Level.debug message, false)
  else
    if level = "info" then (loggingCall threshold Level.info message, !quiet)
    else if level = "error" then (loggingCall threshold Level.error message, true)
    else (loggingCall threshold Level.debug message, debug)

/-- A node's `folders` entry as found in the YAML configuration: a string
scalar, a list of folder identifiers, or any other scalar (e.g. null). -/
inductive FolderSel where
  | strSel (s : String)
  | listSel (ids : List String)
  | nullSel
deriving DecidableEq, Repr

/-- `isinstance(node["folders"], list)`. -/
def isList : FolderSel → Bool
  | FolderSel.listSel _ => true
  | _ => false

/-- `node["folders"] == "all"` (a Python list never equals the string). -/
def selEqAll : FolderSel → Bool
  | FolderSel.strSel s => s = "all"
  | _ => false

/-- The identifier list held by a list-shaped selector. -/
def selList : FolderSel → List String
  | FolderSel.listSel ids => ids
  | _ => []

/-- Result of the selector-resolution conditional at lines 182-188. -/
inductive SelResult where
  | resolved (ids : List String)
  | wrongConfig
deriving DecidableEq, Repr

/-- Lines 182-188: if the selector is not a list or equals `"all"`,
substitute the full configured folder id list; else if it is a list keep
it; otherwise it is the `Wrong folders configuration` error branch. -/
def resolveSelector (sel : FolderSel) (allIds : List String) : SelResult :=
  if !(isList sel) || selEqAll sel then SelResult.resolved allIds
  else if isList sel then SelResult.resolved (selList sel)
  else SelResult.wrongConfig

/-- A node entry of the `nodes` mapping.  `address` is accessed without a
guard (line 173), hence `Option` with `none` meaning the key is absent;
`ssh-port` and `user` are optional with defaults (lines 168-171). -/
structure Node where
  address : Option String
  sshPort : Option Nat
  user : Option String
  folders : FolderSel
deriving DecidableEq, Repr

/-- A folder entry of the `folders` mapping.  `path` is required;
`dest` defaults to `path` (lines 196-197); `rsync-options` defaults to
the empty string when absent or null (lines 194-195), so both states are
modelled as `none`. -/
structure Folder where
  path : String
  dest : Option String
  rsyncOptions : Option String
deriving DecidableEq, Repr

/-- A service entry of the `services` mapping.  `name` and `method` are
accessed without guards; `sudo` defaults to false (lines 222-223). -/
structure Service where
  name : String
  method : String
  sudoFlag : Option Bool
deriving DecidableEq, Repr

/-- The configuration document after the load/defaulting prologue
(lines 114-138).  `nodes` is `none` when the key is absent (line 156
would raise `KeyError`), `some none` when it maps to null, and
`some (some ns)` otherwise; `folders` and `enable-services` are `none`
when the key is absent (lines 161-162 would raise `KeyError`).  The two
sleep times were already defaulted at lines 135-138. -/
structure Config where
  nodes : Option (Option (List (String × Node)))
  folders : Option (List (String × Folder))
  enableServices : Option Bool
  services : List (String × Service)
  sleepTimeFolders : Nat
  sleepTimeServices : Nat

/-- Lines 168-169: `node["ssh-port"] = 22` when the key is absent. -/
def resolvePort (node : Node) : Nat :=
  node.sshPort.getD 22

/-- Lines 170-171: `node["user"] = getpass.getuser()` when absent;
`osUser` stands for the invoking OS user. -/
def resolveUser (osUser : String) (node : Node) : String :=
  node.user.getD osUser

/-- Lines 196-197: `folder["dest"] = folder["path"]` when absent. -/
def resolveDest (f : Folder) : String :=
  f.dest.getD f.path

/-- Lines 194-195: `folder["rsync-options"] = ""` when absent or null. -/
def resolveRsyncOptions (f : Folder) : String :=
  f.rsyncOptions.getD ""

/-- The connectivity probe command string built at line 175. -/
def probeCmd (sshBin : String) (port : Nat) (user addr : String) : String :=
  sshBin ++ " -o BatchMode=yes -p " ++ toString port ++ " " ++ user ++ "@"
    ++ addr ++ " \"ls /dev/null > /dev/null\""

/-- The rsync transfer command string built at line 201. -/
def rsyncCmd (rsyncBin user : String) (port : Nat)
    (opts path addr dest : String) : String :=
  rsyncBin ++ " -a -v -e \"ssh -o BatchMode=yes -l " ++ user ++ " -p "
    ++ toString port ++ "\" " ++ opts ++ " " ++ path ++ " " ++ addr ++ ":"
    ++ dest

/-- The remote service command string built at line 226. -/
def serviceCmd (sshBin : String) (port : Nat) (user addr : String)
    (useSudo : Bool) (method name : String) : String :=
  let su := if useSudo then "sudo" else ""
  sshBin ++ " -q -t -o BatchMode=yes -p " ++ toString port ++ " " ++ user
    ++ "@" ++ addr ++ " \"" ++ su ++ " systemctl " ++ method ++ " " ++ name
    ++ "; sleep 2; " ++ su ++ " systemctl is-active " ++ name ++ "\""

/-- Outcome of one external command run by `subprocess.run`: success
(exit 0) or failure, together with the captured combined output. -/
structure ExecResult where
  ok : Bool
  output : String
deriving DecidableEq, Repr

/-- One observable step of the orchestration core: a `mylog` call (the
level the message is handed to the logging module at), an external
command invocation, or a `time.sleep`. -/
inductive Event where
  | log (lvl : Level) (msg : String)
  | runCmd (cmd : String)
  | sleep (seconds : Nat)
deriving DecidableEq, Repr

/-- One iteration of the folder loop body (lines 193-213) for a folder
that passed the membership test: defaulting, `Syncing` log, rsync run;
on failure two error logs and `continue` (which skips the sleep at line
213); on success a debug and an info log followed by the sleep. -/
def processFolder (exec : String → ExecResult) (rsyncBin user : String)
    (port : Nat) (addr : String) (stF : Nat) (fid : String) (f : Folder) :
    List Event :=
  let cmd := rsyncCmd rsyncBin user port (resolveRsyncOptions f) f.path addr
    (resolveDest f)
  let r := exec cmd
  [Event.log Level.info ("Syncing " ++ fid ++ " folder ..."),
   Event.runCmd cmd] ++
  (if r.ok then
    [Event.log Level.debug ("rsync output:\n" ++ r.output),
     Event.log Level.info (fid ++ " successfully synced"),
     Event.sleep stF]
  else
    [Event.log Level.error ("rsync output:\n" ++ r.output),
     Event.log Level.error ("Skipped folder " ++ fid)])

/-- The folder loop (lines 191-213): iterate the configured folders in
configuration order and process those whose id is in the node's resolved
folder id list (`if id_f in node["folders"]`, line 192). -/
def folderLoop (exec : String → ExecResult) (rsyncBin user : String)
    (port : Nat) (addr : String) (stF : Nat) (ids : List String) :
    List (String × Folder) → List Event
  | [] => []
  | (fid, f) :: rest =>
    (if ids.contains fid then
      processFolder exec rsyncBin user port addr stF fid f
    else []) ++ folderLoop exec rsyncBin user port addr stF ids rest

/-- One iteration of the service loop body (lines 217-238): `Trying` log,
sudo defaulting, ssh run; on failure a debug log, an error log and
`continue` (which skips the sleep at line 238); on success a debug and an
info log followed by the sleep. -/
def processService (exec : String → ExecResult) (sshBin user : String)
    (port : Nat) (addr : String) (stS : Nat) (idn sid : String)
    (s : Service) : List Event :=
  let cmd := serviceCmd sshBin port user addr (s.sudoFlag.getD false) s.method
    s.name
  let r := exec cmd
  [Event.log Level.info ("Trying service " ++ sid ++ " " ++ s.method
     ++ " ..."),
   Event.runCmd cmd] ++
  (if r.ok then
    [Event.log Level.debug ("command output:\n" ++ r.output),
     Event.log Level.info (sid ++ " successfully " ++ s.method ++ "ed"),
     Event.sleep stS]
  else
    [Event.log Level.debug ("command output:\n" ++ r.output),
     Event.log Level.error ("... something went wrong. Please check on "
       ++ idn ++ " system")])

/-- The service loop (lines 216-238), iterating every configured service
in configuration order with no per-node filtering. -/
def serviceLoop (exec : String → ExecResult) (sshBin user : String)
    (port : Nat) (addr : String) (stS : Nat) (idn : String) :
    List (String × Service) → List Event
  | [] => []
  | (sid, s) :: rest =>
    processService exec sshBin user port addr stS idn sid s
      ++ serviceLoop exec sshBin user port addr stS idn rest

/-- The per-node body of the main loop (lines 167-238), given the node's
address: defaulting, `Connecting` log, connectivity probe; on probe
failure an error log and `continue`; otherwise selector resolution
(whose error branch also does `continue`), then the folder loop, then,
when services are enabled, the service loop. -/
def processNode (exec : String → ExecResult) (sshBin rsyncBin osUser : String)
    (folders : List (String × Folder)) (es : Bool)
    (services : List (String × Service)) (stF stS : Nat)
    (idn : String) (node : Node) (addr : String) : List Event :=
  let port := resolvePort node
  let user := resolveUser osUser node
  let pc := probeCmd sshBin port user addr
  [Event.log Level.info ("Connecting to " ++ addr ++ ":" ++ toString port
     ++ " ..."),
   Event.runCmd pc] ++
  (if !(exec pc).ok then
    [Event.log Level.error ("... Connection failed. Skipping node " ++ idn)]
  else
    match resolveSelector node.folders (folders.map Prod.fst) with
    | SelResult.wrongConfig =>
      [Event.log Level.error ("Wrong folders configuration. Skipping node "
        ++ idn)]
    | SelResult.resolved ids =>
      folderLoop exec rsyncBin user port addr stF ids folders ++
      (if es then serviceLoop exec sshBin user port addr stS idn services
       else []))

/-- How a run of the script ends, for the paths modelled here: a clean
`exit(0)`, one of the `exit(1)` paths that print a fatal message, or an
uncaught Python exception (e.g. `KeyError`) producing a traceback and a
non-zero exit. -/
inductive Outcome where
  | exitOk
  | fatalExit
  | uncaughtKeyError (key : String)
deriving DecidableEq, Repr

/-- The `for id_n, node in config["nodes"].items()` loop (line 166).
Returns the emitted events and `some key` when a `KeyError` on `key`
aborts the run (a node without `address`, line 173). -/
def nodeSweep (exec : String → ExecResult) (sshBin rsyncBin osUser : String)
    (folders : List (String × Folder)) (es : Bool)
    (services : List (String × Service)) (stF stS : Nat) :
    List (String × Node) → List Event × Option String
  | [] => ([], none)
  | (idn, node) :: rest =>
    match node.address with
    | none => ([], some "address")
    | some addr =>
      let evs := processNode exec sshBin rsyncBin osUser folders es services
        stF stS idn node addr
      let tail := nodeSweep exec sshBin rsyncBin osUser folders es services
        stF stS rest
      (evs ++ tail.1, tail.2)

/-- The main flow from line 153 on (after config load, log setup and the
binary check): `Start execution` log, the no-nodes check (lines 156-158),
the three `Loaded ...` debug logs (lines 160-163, which access
`config["folders"]` and `config["enable-services"]` unguarded), the node
sweep, and the final `End execution` log with `exit(0)` (lines 241-242). -/
def runMain (exec : String → ExecResult) (sshBin rsyncBin osUser : String)
    (cfg : Config) : List Event × Outcome :=
  let start := [Event.log Level.info "Start execution"]
  match cfg.nodes with
  | none => (start, Outcome.uncaughtKeyError "nodes")
  | some none =>
    (start ++ [Event.log Level.info "Config file has not nodes. Exit\n"],
     Outcome.exitOk)
  | some (some ns) =>
    let d1 := [Event.log Level.debug ("Loaded " ++ toString ns.length
      ++ " nodes")]
    match cfg.folders with
    | none => (start ++ d1, Outcome.uncaughtKeyError "folders")
    | some folders =>
      let d2 := [Event.log Level.debug ("Loaded " ++ toString folders.length
        ++ " folders")]
      match cfg.enableServices with
      | none => (start ++ d1 ++ d2, Outcome.uncaughtKeyError "enable-services")
      | some es =>
        let d3 := if es then
          [Event.log Level.debug ("Loaded " ++ toString cfg.services.length
            ++ " services")]
        else []
        let sweep := nodeSweep exec sshBin rsyncBin osUser folders es
          cfg.services cfg.sleepTimeFolders cfg.sleepTimeServices ns
        match sweep.2 with
        | some k =>
          (start ++ d1 ++ d2 ++ d3 ++ sweep.1, Outcome.uncaughtKeyError k)
        | none =>
          (start ++ d1 ++ d2 ++ d3 ++ sweep.1
            ++ [Event.log Level.info "End execution\n"], Outcome.exitOk)

/-- Missing or empty `log_file` falls back to the fixed name
(lines 126-127); an empty string counts as missing. -/
def resolveLogFile (v : Option String) : String :=
  match v with
  | none => "sync_nodes.log"
  | some s => if s = "" then "sync_nodes.log" else s

/-- Missing or empty `sleep-time-folders` / `sleep-time-services` falls
back to 1 (lines 135-138). -/
def resolveSleep (v : Option Nat) : Nat :=
  v.getD 1

/-- The folder id list the folder loop filters against, as produced by
the selector resolution (the error branch never fires, see below; it is
mapped to the empty list here). -/
def resolvedIds (sel : FolderSel) (allIds : List String) : List String :=
  match resolveSelector sel allIds with
  | SelResult.resolved l => l
  | SelResult.wrongConfig => []

/-- The effective folder set of a node: the configured folders, in
configuration order, whose id passes the membership test of line 192
against the resolved selector. -/
def effectiveFolders (sel : FolderSel) (folders : List (String × Folder)) :
    List (String × Folder) :=
  folders.filter (fun p => (resolvedIds sel (folders.map Prod.fst)).contains p.1)

/-- Number of `time.sleep` events in a trace. -/
def countSleeps : List Event → Nat
  | [] => 0
  | Event.sleep _ :: rest => countSleeps rest + 1
  | _ :: rest => countSleeps rest

/-- Number of selected folders in configuration order whose rsync
command succeeds under the oracle. -/
def folderOkCount (exec : String → ExecResult) (rsyncBin user : String)
    (port : Nat) (addr : String) (ids : List String) :
    List (String × Folder) → Nat
  | [] => 0
  | (fid, f) :: rest =>
    (if ids.contains fid
        && (exec (rsyncCmd rsyncBin user port (resolveRsyncOptions f)
            f.path addr (resolveDest f))).ok
      then 1 else 0)
    + folderOkCount exec rsyncBin user port addr ids rest

/-- Number of services in configuration order whose remote command
succeeds under the oracle. -/
def serviceOkCount (exec : String → ExecResult) (sshBin user : String)
    (port : Nat) (addr : String) : List (String × Service) → Nat
  | [] => 0
  | (_, s) :: rest =>
    (if (exec (serviceCmd sshBin port user addr (s.sudoFlag.getD false)
          s.method s.name)).ok
      then 1 else 0)
    + serviceOkCount exec sshBin user port addr rest

/-- Concatenated per-folder traces over a list of folders, used to relate
the folder loop to the effective folder set. -/
def flatTrace (g : String → Folder → List Event) :
    List (String × Folder) → List Event
  | [] => []
  | (fid, f) :: rest => g fid f ++ flatTrace g rest

/-- Sample folder with every optional field absent. -/
def folderA : Folder := { path := "/srv/a", dest := none, rsyncOptions := none }

/-- Sample folder with explicit destination and rsync options. -/
def folderB : Folder :=
  { path := "/srv/b", dest := some "/dst/b", rsyncOptions := some "-z" }

/-- Sample folder with every optional field absent. -/
def folderC : Folder := { path := "/srv/c", dest := none, rsyncOptions := none }

/-- A three-folder configuration in configuration order. -/
def foldersEx : List (String × Folder) :=
  [("a", folderA), ("b", folderB), ("c", folderC)]

/-- A one-service configuration. -/
def servicesEx : List (String × Service) :=
  [("s1", { name := "nginx", method := "restart", sudoFlag := none })]

/-- Sample node whose folder selector is the scalar string `"docs"`
(neither `"all"` nor a list). -/
def nodeScalarSel : Node :=
  { address := some "h1", sshPort := none, user := none,
    folders := FolderSel.strSel "docs" }

/-- Sample node selecting all folders explicitly. -/
def nodeAllSel : Node :=
  { address := some "h1", sshPort := none, user := none,
    folders := FolderSel.strSel "all" }

/-- Oracle under which every external command succeeds. -/
def execOk : String → ExecResult := fun _ => { ok := true, output := "out" }

/-- Oracle under which every external command fails. -/
def execFailAll : String → ExecResult :=
  fun _ => { ok := false, output := "refused" }

/-- Oracle under which only the connectivity probe of `h1` (port 22,
user `u`) succeeds and every transfer or service command fails. -/
def execProbeOnly : String → ExecResult :=
  fun c => { ok := c == probeCmd "ssh" 22 "u" "h1", output := "boom" }

/-- Oracle under which exactly the rsync command of folder `b` fails. -/
def execFailB : String → ExecResult :=
  fun c =>
    { ok := !(c == rsyncCmd "rsync" "u" 22 "-z" "/srv/b" "h1" "/dst/b"),
      output := "o" }

/-- Configuration whose `nodes` key is absent entirely. -/
def cfgNodesAbsent : Config :=
  { nodes := none, folders := some foldersEx, enableServices := some false,
    services := [], sleepTimeFolders := 1, sleepTimeServices := 1 }

/-- Configuration whose `nodes` key maps to null. -/
def cfgNodesNull : Config :=
  { nodes := some none, folders := some foldersEx,
    enableServices := some false, services := [], sleepTimeFolders := 1,
    sleepTimeServices := 1 }

/-- Configuration with a node but no `folders` key. -/
def cfgNoFoldersKey : Config :=
  { nodes := some (some [("n1", nodeScalarSel)]), folders := none,
    enableServices := some false, services := [], sleepTimeFolders := 1,
    sleepTimeServices := 1 }

/-- Configuration with a node but no `enable-services` key. -/
def cfgNoEnableKey : Config :=
  { nodes := some (some [("n1", nodeScalarSel)]), folders := some foldersEx,
    enableServices := none, services := [], sleepTimeFolders := 1,
    sleepTimeServices := 1 }

/-- Sample node with no `address` key. -/
def nodeNoAddress : Node :=
  { address := none, sshPort := some 2222, user := some "root",
    folders := FolderSel.strSel "all" }

/-- Configuration whose single node lacks `address`. -/
def cfgNoAddress : Config :=
  { nodes := some (some [("n1", nodeNoAddress)]), folders := some foldersEx,
    enableServices := some false, services := [], sleepTimeFolders := 1,
    sleepTimeServices := 1 }

lemma resolveSelector_not_list (sel : FolderSel) (ids : List String)
    (h : isList sel = false) :
    resolveSelector sel ids = SelResult.resolved ids := by
  simp [resolveSelector, h]

lemma resolveSelector_list (l : List String) (ids : List String) :
    resolveSelector (FolderSel.listSel l) ids = SelResult.resolved l := by
  simp [resolveSelector, isList, selEqAll, selList]

lemma resolveSelector_ne_wrong (sel : FolderSel) (ids : List String) :
    resolveSelector sel ids ≠ SelResult.wrongConfig := by
  cases sel with
  | strSel s => simp [resolveSelector, isList]
  | listSel l => simp [resolveSelector, isList, selEqAll, selList]
  | nullSel => simp [resolveSelector, isList]

lemma resolvedIds_not_list (sel : FolderSel) (ids : List String)
    (h : isList sel = false) : resolvedIds sel ids = ids := by
  simp [resolvedIds, resolveSelector_not_list sel ids h]

lemma resolvedIds_list (l : List String) (ids : List String) :
    resolvedIds (FolderSel.listSel l) ids = l := by
  simp [resolvedIds, resolveSelector_list]

lemma filter_contains_map_fst (folders : List (String × Folder)) :
    folders.filter (fun p => (folders.map Prod.fst).contains p.1) = folders := by
  apply List.filter_eq_self.mpr
  intro p hp
  have : p.1 ∈ folders.map Prod.fst := List.mem_map.mpr ⟨p, hp, rfl⟩
  exact List.elem_iff.mpr this

lemma countSleeps_append (a b : List Event) :
    countSleeps (a ++ b) = countSleeps a + countSleeps b := by
  induction a with
  | nil => simp [countSleeps]
  | cons e rest ih =>
    cases e <;> simp [countSleeps, ih]
    omega

lemma countSleeps_processFolder (exec : String → ExecResult)
    (rsyncBin user : String) (port : Nat) (addr : String) (stF : Nat)
    (fid : String) (f : Folder) :
    countSleeps (processFolder exec rsyncBin user port addr stF fid f)
      = if (exec (rsyncCmd rsyncBin user port (resolveRsyncOptions f)
          f.path addr (resolveDest f))).ok then 1 else 0 := by
  by_cases h : (exec (rsyncCmd rsyncBin user port (resolveRsyncOptions f)
      f.path addr (resolveDest f))).ok
  all_goals simp [processFolder, h, countSleeps]

lemma countSleeps_folderLoop (exec : String → ExecResult)
    (rsyncBin user : String) (port : Nat) (addr : String) (stF : Nat)
    (ids : List String) (folders : List (String × Folder)) :
    countSleeps (folderLoop exec rsyncBin user port addr stF ids folders)
      = folderOkCount exec rsyncBin user port addr ids folders := by
  induction folders with
  | nil => simp [folderLoop, countSleeps, folderOkCount]
  | cons p rest ih =>
    obtain ⟨fid, f⟩ := p
    by_cases h : fid ∈ ids
    · simp [folderLoop, folderOkCount, h, countSleeps_append, ih,
        countSleeps_processFolder]
    · simp [folderLoop, folderOkCount, h, countSleeps, ih]

lemma countSleeps_processService (exec : String → ExecResult)
    (sshBin user : String) (port : Nat) (addr : String) (stS : Nat)
    (idn sid : String) (s : Service) :
    countSleeps (processService exec sshBin user port addr stS idn sid s)
      = if (exec (serviceCmd sshBin port user addr (s.sudoFlag.getD false)
          s.method s.name)).ok then 1 else 0 := by
  by_cases h : (exec (serviceCmd sshBin port user addr (s.sudoFlag.getD false)
      s.method s.name)).ok
  all_goals simp [processService, h, countSleeps]

lemma countSleeps_serviceLoop (exec : String → ExecResult)
    (sshBin user : String) (port : Nat) (addr : String) (stS : Nat)
    (idn : String) (services : List (String × Service)) :
    countSleeps (serviceLoop exec sshBin user port addr stS idn services)
      = serviceOkCount exec sshBin user port addr services := by
  induction services with
  | nil => simp [serviceLoop, countSleeps, serviceOkCount]
  | cons p rest ih =>
    obtain ⟨sid, s⟩ := p
    simp [serviceLoop, serviceOkCount, countSleeps_append, ih,
      countSleeps_processService]

lemma mem_folderLoop_of_mem {exec : String → ExecResult}
    {rsyncBin user : String} {port : Nat} {addr : String} {stF : Nat}
    {ids : List String} {folders : List (String × Folder)}
    {fid : String} {f : Folder} {e : Event}
    (hmem : (fid, f) ∈ folders) (hsel : fid ∈ ids)
    (he : e ∈ processFolder exec rsyncBin user port addr stF fid f) :
    e ∈ folderLoop exec rsyncBin user port addr stF ids folders := by
  induction folders with
  | nil => cases hmem
  | cons p rest ih =>
    rcases List.mem_cons.mp hmem with h | h
    · subst h
      simp only [folderLoop]
      exact List.mem_append_left _ (by simp [hsel, he])
    · simp only [folderLoop]
      exact List.mem_append_right _ (ih h)

lemma mem_serviceLoop_of_mem {exec : String → ExecResult}
    {sshBin user : String} {port : Nat} {addr : String} {stS : Nat}
    {idn sid : String} {s : Service} {e : Event}
    {services : List (String × Service)}
    (hmem : (sid, s) ∈ services)
    (he : e ∈ processService exec sshBin user port addr stS idn sid s) :
    e ∈ serviceLoop exec sshBin user port addr stS idn services := by
  induction services with
  | nil => cases hmem
  | cons p rest ih =>
    rcases List.mem_cons.mp hmem with h | h
    · subst h
      simp only [serviceLoop]
      exact List.mem_append_left _ he
    · simp only [serviceLoop]
      exact List.mem_append_right _ (ih h)

lemma processNode_probe_fail (exec : String → ExecResult)
    (sshBin rsyncBin osUser : String) (folders : List (String × Folder))
    (es : Bool) (services : List (String × Service)) (stF stS : Nat)
    (idn : String) (node : Node) (addr : String)
    (h : (exec (probeCmd sshBin (resolvePort node) (resolveUser osUser node)
      addr)).ok = false) :
    processNode exec sshBin rsyncBin osUser folders es services stF stS idn
      node addr =
    [Event.log Level.info ("Connecting to " ++ addr ++ ":"
       ++ toString (resolvePort node) ++ " ..."),
     Event.runCmd (probeCmd sshBin (resolvePort node)
       (resolveUser osUser node) addr),
     Event.log Level.error ("... Connection failed. Skipping node " ++ idn)]
    := by
  simp [processNode, h]

lemma processNode_probe_ok (exec : String → ExecResult)
    (sshBin rsyncBin osUser : String) (folders : List (String × Folder))
    (es : Bool) (services : List (String × Service)) (stF stS : Nat)
    (idn : String) (node : Node) (addr : String)
    (h : (exec (probeCmd sshBin (resolvePort node) (resolveUser osUser node)
      addr)).ok = true) :
    processNode exec sshBin rsyncBin osUser folders es services stF stS idn
      node addr =
    [Event.log Level.info ("Connecting to " ++ addr ++ ":"
       ++ toString (resolvePort node) ++ " ..."),
     Event.runCmd (probeCmd sshBin (resolvePort node)
       (resolveUser osUser node) addr)] ++
    folderLoop exec rsyncBin (resolveUser osUser node) (resolvePort node)
      addr stF (resolvedIds node.folders (folders.map Prod.fst)) folders ++
    (if es then
      serviceLoop exec sshBin (resolveUser osUser node) (resolvePort node)
        addr stS idn services
    else []) := by
  cases hr : resolveSelector node.folders (folders.map Prod.fst) with
  | resolved l =>
    simp [processNode, h, hr, resolvedIds, List.append_assoc]
  | wrongConfig => exact absurd hr (resolveSelector_ne_wrong _ _)

lemma list_head_append_ne {p q : String} {c d : Char} {cp cq : List Char}
    (hp : p.data = c :: cp) (hq : q.data = d :: cq) (hcd : c ≠ d)
    (s t : String) : p ++ s ≠ q ++ t := by
  intro h
  have h2 := congrArg String.data h
  rw [String.data_append, String.data_append, hp, hq] at h2
  simp only [List.cons_append, List.cons.injEq] at h2
  exact hcd h2.1

lemma processFolder_error_shape {exec : String → ExecResult}
    {rsyncBin user : String} {port : Nat} {addr : String} {stF : Nat}
    {fid : String} {f : Folder} {m : String}
    (h : Event.log Level.error m
      ∈ processFolder exec rsyncBin user port addr stF fid f) :
    (∃ out, m = "rsync output:\n" ++ out) ∨ m = "Skipped folder " ++ fid := by
  by_cases hk : (exec (rsyncCmd rsyncBin user port (resolveRsyncOptions f)
      f.path addr (resolveDest f))).ok
  · simp [processFolder, hk] at h
  · simp [processFolder, hk] at h
    rcases h with h | h
    · exact Or.inl ⟨_, h⟩
    · exact Or.inr h

lemma folderLoop_error_shape {exec : String → ExecResult}
    {rsyncBin user : String} {port : Nat} {addr : String} {stF : Nat}
    {ids : List String} {folders : List (String × Folder)} {m : String}
    (h : Event.log Level.error m
      ∈ folderLoop exec rsyncBin user port addr stF ids folders) :
    (∃ out, m = "rsync output:\n" ++ out)
      ∨ (∃ fid, m = "Skipped folder " ++ fid) := by
  induction folders with
  | nil => cases h
  | cons p rest ih =>
    obtain ⟨fid, f⟩ := p
    simp only [folderLoop] at h
    rcases List.mem_append.mp h with h | h
    · by_cases hc : fid ∈ ids
      · have hc2 : ids.contains fid = true := by simp [hc]
        rw [if_pos hc2] at h
        rcases processFolder_error_shape h with h2 | h2
        · exact Or.inl h2
        · exact Or.inr ⟨fid, h2⟩
      · simp [hc] at h
    · exact ih h

lemma processService_error_shape {exec : String → ExecResult}
    {sshBin user : String} {port : Nat} {addr : String} {stS : Nat}
    {idn sid : String} {s : Service} {m : String}
    (h : Event.log Level.error m
      ∈ processService exec sshBin user port addr stS idn sid s) :
    m = "... something went wrong. Please check on " ++ idn ++ " system" := by
  by_cases hk : (exec (serviceCmd sshBin port user addr
      (s.sudoFlag.getD false) s.method s.name)).ok
  · simp [processService, hk] at h
  · simp [processService, hk] at h
    simpa using h

lemma head_of_append {l1 l2 : List Char} {c : Char}
    (h : l1.head? = some c) : (l1 ++ l2).head? = some c := by
  cases l1 with
  | nil => cases h
  | cons a t =>
    simp only [List.head?_cons, Option.some.injEq] at h
    simp [h]

lemma string_append_head (p : String) (c : Char)
    (h : p.data.head? = some c) (s : String) :
    (p ++ s).data.head? = some c := by
  rw [String.data_append]
  exact head_of_append h

lemma serviceLoop_error_shape {exec : String → ExecResult}
    {sshBin user : String} {port : Nat} {addr : String} {stS : Nat}
    {idn : String} {services : List (String × Service)} {m : String}
    (h : Event.log Level.error m
      ∈ serviceLoop exec sshBin user port addr stS idn services) :
    m = "... something went wrong. Please check on " ++ idn ++ " system" := by
  induction services with
  | nil => cases h
  | cons p rest ih =>
    obtain ⟨sid, s⟩ := p
    simp only [serviceLoop] at h
    rcases List.mem_append.mp h with h | h
    · exact processService_error_shape h
    · exact ih h

lemma processNode_error_shape {exec : String → ExecResult}
    {sshBin rsyncBin osUser : String} {folders : List (String × Folder)}
    {es : Bool} {services : List (String × Service)} {stF stS : Nat}
    {idn : String} {node : Node} {addr : String} {m : String}
    (h : Event.log Level.error m ∈ processNode exec sshBin rsyncBin osUser
      folders es services stF stS idn node addr) :
    m = "... Connection failed. Skipping node " ++ idn
    ∨ (∃ out, m = "rsync output:\n" ++ out)
    ∨ (∃ fid, m = "Skipped folder " ++ fid)
    ∨ m = "... something went wrong. Please check on " ++ idn ++ " system"
    := by
  cases hpc : (exec (probeCmd sshBin (resolvePort node)
      (resolveUser osUser node) addr)).ok with
  | false =>
    rw [processNode_probe_fail exec sshBin rsyncBin osUser folders es
      services stF stS idn node addr hpc] at h
    simp at h
    exact Or.inl h
  | true =>
    rw [processNode_probe_ok exec sshBin rsyncBin osUser folders es
      services stF stS idn node addr hpc] at h
    rcases List.mem_append.mp h with h | h
    · rcases List.mem_append.mp h with h | h
      · simp at h
      · rcases folderLoop_error_shape h with h | h
        · exact Or.inr (Or.inl h)
        · exact Or.inr (Or.inr (Or.inl h))
    · cases es with
      | false => simp at h
      | true =>
        simp only [if_pos] at h
        exact Or.inr (Or.inr (Or.inr (serviceLoop_error_shape h)))

lemma folderLoop_eq_flat (exec : String → ExecResult)
    (rsyncBin user : String) (port : Nat) (addr : String) (stF : Nat)
    (ids : List String) (folders : List (String × Folder)) :
    folderLoop exec rsyncBin user port addr stF ids folders
      = flatTrace (processFolder exec rsyncBin user port addr stF)
          (folders.filter (fun p => ids.contains p.1)) := by
  induction folders with
  | nil => simp [folderLoop, flatTrace]
  | cons p rest ih =>
    obtain ⟨fid, f⟩ := p
    by_cases h : fid ∈ ids
    · have hc : ids.contains fid = true := by simp [h]
      simp only [folderLoop, List.filter_cons, hc, if_pos, flatTrace, ih]
    · have hc : ids.contains fid = false := by simp [h]
      simp [folderLoop, List.filter_cons, hc, ih, h]

lemma runCmd_mem_processFolder (exec : String → ExecResult)
    (rsyncBin user : String) (port : Nat) (addr : String) (stF : Nat)
    (fid : String) (f : Folder) :
    Event.runCmd (rsyncCmd rsyncBin user port (resolveRsyncOptions f)
        f.path addr (resolveDest f))
      ∈ processFolder exec rsyncBin user port addr stF fid f := by
  simp [processFolder]

lemma runCmd_mem_processService (exec : String → ExecResult)
    (sshBin user : String) (port : Nat) (addr : String) (stS : Nat)
    (idn sid : String) (s : Service) :
    Event.runCmd (serviceCmd sshBin port user addr (s.sudoFlag.getD false)
        s.method s.name)
      ∈ processService exec sshBin user port addr stS idn sid s := by
  simp [processService]

lemma fail_logs_mem_processFolder (exec : String → ExecResult)
    (rsyncBin user : String) (port : Nat) (addr : String) (stF : Nat)
    (fid : String) (f : Folder)
    (h : (exec (rsyncCmd rsyncBin user port (resolveRsyncOptions f)
      f.path addr (resolveDest f))).ok = false) :
    Event.log Level.error ("rsync output:\n"
        ++ (exec (rsyncCmd rsyncBin user port (resolveRsyncOptions f)
            f.path addr (resolveDest f))).output)
      ∈ processFolder exec rsyncBin user port addr stF fid f
    ∧ Event.log Level.error ("Skipped folder " ++ fid)
      ∈ processFolder exec rsyncBin user port addr stF fid f := by
  constructor <;> simp [processFolder, h]

/-- C9: for every possible folder selector value, the `else` branch at
lines 186-188 is unreachable — `resolveSelector` never returns the
`wrongConfig` result, and no node trace ever contains the
`Wrong folders configuration` error message, for any oracle, node or
configuration. -/
theorem claim_C9 :
    (∀ sel ids, resolveSelector sel ids ≠ SelResult.wrongConfig)
    ∧ ∀ (exec : String → ExecResult) (sshBin rsyncBin osUser : String)
        (folders : List (String × Folder)) (es : Bool)
        (services : List (String × Service)) (stF stS : Nat)
        (idn : String) (node : Node) (addr s : String),
        Event.log Level.error
            ("Wrong folders configuration. Skipping node " ++ s)
          ∉ processNode exec sshBin rsyncBin osUser folders es services
              stF stS idn node addr := by
  refine ⟨resolveSelector_ne_wrong, ?_⟩
  intro exec sshBin rsyncBin osUser folders es services stF stS idn node
    addr s hmem
  have hW : ("Wrong folders configuration. Skipping node " ++ s).data.head?
      = some 'W' :=
    string_append_head "Wrong folders configuration. Skipping node " 'W' rfl s
  rcases processNode_error_shape hmem with h | ⟨out, h⟩ | ⟨fid, h⟩ | h
  · rw [h] at hW
    have h2 : ("... Connection failed. Skipping node " ++ idn).data.head?
        = some '.' :=
      string_append_head "... Connection failed. Skipping node " '.' rfl idn
    rw [hW] at h2
    simp at h2
  · rw [h] at hW
    have h2 : ("rsync output:\n" ++ out).data.head? = some 'r' :=
      string_append_head "rsync output:\n" 'r' rfl out
    rw [hW] at h2
    simp at h2
  · rw [h] at hW
    have h2 : ("Skipped folder " ++ fid).data.head? = some 'S' :=
      string_append_head "Skipped folder " 'S' rfl fid
    rw [hW] at h2
    simp at h2
  · rw [h] at hW
    have h2 : (("... something went wrong. Please check on " ++ idn)
        ++ " system").data.head? = some '.' :=
      string_append_head _ '.'
        (string_append_head "... something went wrong. Please check on " '.'
          rfl idn) " system"
    rw [hW] at h2
    simp at h2

/-- C2 (counterexample): a node whose folder selector is the scalar
`"docs"` — neither `"all"` nor a list — is not treated as claimed: no
`Wrong folders configuration` error is logged and folder processing is
not skipped (the first folder is synced). -/
theorem claim_C2_counterexample :
    Event.log Level.info "Syncing a folder ..."
      ∈ processNode execOk "ssh" "rsync" "u" foldersEx true servicesEx 1 1
          "n1" nodeScalarSel "h1"
    ∧ Event.log Level.error "Wrong folders configuration. Skipping node n1"
      ∉ processNode execOk "ssh" "rsync" "u" foldersEx true servicesEx 1 1
          "n1" nodeScalarSel "h1" := by
  decide

/-- C2 (amended): for every node whose folder selector is not a list
(scalars such as `"docs"` included), the selector already satisfies the
first branch at line 182 and is silently replaced by the full configured
folder list: no error is logged, folder processing proceeds over the full
configured folder set, and service processing follows when enabled. -/
theorem claim_C2_amended (exec : String → ExecResult)
    (sshBin rsyncBin osUser : String) (folders : List (String × Folder))
    (es : Bool) (services : List (String × Service)) (stF stS : Nat)
    (idn : String) (node : Node) (addr : String)
    (h : isList node.folders = false)
    (hprobe : (exec (probeCmd sshBin (resolvePort node)
      (resolveUser osUser node) addr)).ok = true) :
    processNode exec sshBin rsyncBin osUser folders es services stF stS idn
      node addr =
    [Event.log Level.info ("Connecting to " ++ addr ++ ":"
       ++ toString (resolvePort node) ++ " ..."),
     Event.runCmd (probeCmd sshBin (resolvePort node)
       (resolveUser osUser node) addr)] ++
    folderLoop exec rsyncBin (resolveUser osUser node) (resolvePort node)
      addr stF (folders.map Prod.fst) folders ++
    (if es then
      serviceLoop exec sshBin (resolveUser osUser node) (resolvePort node)
        addr stS idn services
    else []) := by
  rw [processNode_probe_ok exec sshBin rsyncBin osUser folders es services
    stF stS idn node addr hprobe, resolvedIds_not_list _ _ h]

/-- Witness for C2 (amended): the scalar-selector node processed with an
all-success oracle runs the folder loop over the full folder id list. -/
theorem claim_C2_witness :
    processNode execOk "ssh" "rsync" "u" foldersEx true servicesEx 1 1 "n1"
      nodeScalarSel "h1" =
    [Event.log Level.info ("Connecting to " ++ "h1" ++ ":"
       ++ toString (resolvePort nodeScalarSel) ++ " ..."),
     Event.runCmd (probeCmd "ssh" (resolvePort nodeScalarSel)
       (resolveUser "u" nodeScalarSel) "h1")] ++
    folderLoop execOk "rsync" (resolveUser "u" nodeScalarSel)
      (resolvePort nodeScalarSel) "h1" 1 (foldersEx.map Prod.fst) foldersEx ++
    (if true then
      serviceLoop execOk "ssh" (resolveUser "u" nodeScalarSel)
        (resolvePort nodeScalarSel) "h1" 1 "n1" servicesEx
    else []) :=
  claim_C2_amended execOk "ssh" "rsync" "u" foldersEx true servicesEx 1 1
    "n1" nodeScalarSel "h1" (by decide) (by decide)

/-- C6: the effective folder set equals the full configured folder set
when the selector is not a list (which includes `"all"`), and equals the
configured folders filtered by membership in the selector list — in
configuration order, extraneous ids never matching — when the selector
is an explicit list; and the folder loop processes exactly the effective
folder set. -/
theorem claim_C6 (sel : FolderSel) (folders : List (String × Folder)) :
    (isList sel = false → effectiveFolders sel folders = folders)
    ∧ (∀ l, sel = FolderSel.listSel l →
        effectiveFolders sel folders
          = folders.filter (fun p => l.contains p.1))
    ∧ ∀ (exec : String → ExecResult) (rsyncBin user : String) (port : Nat)
        (addr : String) (stF : Nat),
        folderLoop exec rsyncBin user port addr stF
            (resolvedIds sel (folders.map Prod.fst)) folders
          = flatTrace (processFolder exec rsyncBin user port addr stF)
              (effectiveFolders sel folders) := by
  refine ⟨?_, ?_, ?_⟩
  · intro h
    rw [effectiveFolders, resolvedIds_not_list _ _ h, filter_contains_map_fst]
  · intro l hl
    subst hl
    rw [effectiveFolders, resolvedIds_list]
  · intro exec rsyncBin user port addr stF
    rw [folderLoop_eq_flat, effectiveFolders]

/-- Witness for C6: with the `"all"` selector the effective set is the
whole three-folder configuration; with the list `["b", "zzz"]` it is
exactly folder `b` (the extraneous id `zzz` never matches). -/
theorem claim_C6_witness :
    effectiveFolders (FolderSel.strSel "all") foldersEx = foldersEx
    ∧ effectiveFolders (FolderSel.listSel ["b", "zzz"]) foldersEx
        = [("b", folderB)] := by
  constructor
  · exact (claim_C6 (FolderSel.strSel "all") foldersEx).1 (by decide)
  · have h := (claim_C6 (FolderSel.listSel ["b", "zzz"]) foldersEx).2.1
      ["b", "zzz"] rfl
    rw [h]
    decide

/-- C1 (counterexample): with an oracle under which only the probe
succeeds, the single selected folder is attempted (its rsync command is
run) yet the trace contains zero sleep events, because the `continue` at
line 207 jumps past the `time.sleep` at line 213; likewise for the
service loop (`continue` at line 232 jumps past line 238).  This refutes
the claim that the pacing sleep follows every attempt regardless of
outcome. -/
theorem claim_C1_counterexample :
    Event.runCmd (rsyncCmd "rsync" "u" 22 "" "/srv/a" "h1" "/srv/a")
      ∈ folderLoop execProbeOnly "rsync" "u" 22 "h1" 1 ["a"] [("a", folderA)]
    ∧ countSleeps
        (folderLoop execProbeOnly "rsync" "u" 22 "h1" 1 ["a"]
          [("a", folderA)]) = 0
    ∧ Event.runCmd (serviceCmd "ssh" 22 "u" "h1" false "restart" "nginx")
      ∈ serviceLoop execProbeOnly "ssh" "u" 22 "h1" 1 "n1" servicesEx
    ∧ countSleeps (serviceLoop execProbeOnly "ssh" "u" 22 "h1" 1 "n1"
        servicesEx) = 0 := by
  decide

/-- C1 (amended): the pacing sleep runs exactly after every successful
folder or service attempt; after a failed attempt the `continue`
statement skips it, so the number of sleep events equals the number of
successful attempts, not the number of attempts. -/
theorem claim_C1_amended (exec : String → ExecResult)
    (rsyncBin sshBin user : String) (port : Nat) (addr : String)
    (stF stS : Nat) (idn : String) (ids : List String)
    (folders : List (String × Folder))
    (services : List (String × Service)) :
    countSleeps (folderLoop exec rsyncBin user port addr stF ids folders)
      = folderOkCount exec rsyncBin user port addr ids folders
    ∧ countSleeps (serviceLoop exec sshBin user port addr stS idn services)
      = serviceOkCount exec sshBin user port addr services :=
  ⟨countSleeps_folderLoop exec rsyncBin user port addr stF ids folders,
   countSleeps_serviceLoop exec sshBin user port addr stS idn services⟩

/-- C5: when a node's connectivity probe fails, the node's trace is
exactly the `Connecting` log, the probe invocation and the
`Connection failed` error log, and the only external command ever run
for that node is the probe itself — no folder transfer and no service
command. -/
theorem claim_C5 (exec : String → ExecResult)
    (sshBin rsyncBin osUser : String) (folders : List (String × Folder))
    (es : Bool) (services : List (String × Service)) (stF stS : Nat)
    (idn : String) (node : Node) (addr : String)
    (h : (exec (probeCmd sshBin (resolvePort node)
      (resolveUser osUser node) addr)).ok = false) :
    processNode exec sshBin rsyncBin osUser folders es services stF stS idn
      node addr =
    [Event.log Level.info ("Connecting to " ++ addr ++ ":"
       ++ toString (resolvePort node) ++ " ..."),
     Event.runCmd (probeCmd sshBin (resolvePort node)
       (resolveUser osUser node) addr),
     Event.log Level.error ("... Connection failed. Skipping node " ++ idn)]
    ∧ ∀ c, Event.runCmd c ∈ processNode exec sshBin rsyncBin osUser folders
        es services stF stS idn node addr →
        c = probeCmd sshBin (resolvePort node) (resolveUser osUser node)
          addr := by
  have heq := processNode_probe_fail exec sshBin rsyncBin osUser folders es
    services stF stS idn node addr h
  refine ⟨heq, ?_⟩
  intro c hc
  rw [heq] at hc
  simpa using hc

/-- Witness for C5: with an all-fail oracle the node trace is just the
probe attempt and the two log lines. -/
theorem claim_C5_witness :
    processNode execFailAll "ssh" "rsync" "u" foldersEx true servicesEx 1 1
      "n1" nodeScalarSel "h1" =
    [Event.log Level.info "Connecting to h1:22 ...",
     Event.runCmd (probeCmd "ssh" 22 "u" "h1"),
     Event.log Level.error "... Connection failed. Skipping node n1"] := by
  rw [(claim_C5 execFailAll "ssh" "rsync" "u" foldersEx true servicesEx 1 1
    "n1" nodeScalarSel "h1" (by decide)).1]
  decide

/-- C7: a failed folder transfer logs the captured output and a skip
notice at error level, while every other selected folder of the same
node is still attempted, and — when services are enabled — every
configured service is still attempted: a single folder failure never
aborts the node's remaining folder or service processing. -/
theorem claim_C7 (exec : String → ExecResult)
    (sshBin rsyncBin osUser : String) (folders : List (String × Folder))
    (es : Bool) (services : List (String × Service)) (stF stS : Nat)
    (idn : String) (node : Node) (addr : String) (fid : String) (f : Folder)
    (hprobe : (exec (probeCmd sshBin (resolvePort node)
      (resolveUser osUser node) addr)).ok = true)
    (hmem : (fid, f) ∈ folders)
    (hsel : fid ∈ resolvedIds node.folders (folders.map Prod.fst))
    (hfail : (exec (rsyncCmd rsyncBin (resolveUser osUser node)
      (resolvePort node) (resolveRsyncOptions f) f.path addr
      (resolveDest f))).ok = false) :
    Event.log Level.error ("Skipped folder " ++ fid)
      ∈ processNode exec sshBin rsyncBin osUser folders es services stF stS
          idn node addr
    ∧ Event.log Level.error ("rsync output:\n"
        ++ (exec (rsyncCmd rsyncBin (resolveUser osUser node)
            (resolvePort node) (resolveRsyncOptions f) f.path addr
            (resolveDest f))).output)
      ∈ processNode exec sshBin rsyncBin osUser folders es services stF stS
          idn node addr
    ∧ (∀ gid g, (gid, g) ∈ folders →
        gid ∈ resolvedIds node.folders (folders.map Prod.fst) →
        Event.runCmd (rsyncCmd rsyncBin (resolveUser osUser node)
            (resolvePort node) (resolveRsyncOptions g) g.path addr
            (resolveDest g))
          ∈ processNode exec sshBin rsyncBin osUser folders es services stF
              stS idn node addr)
    ∧ (es = true → ∀ sid s, (sid, s) ∈ services →
        Event.runCmd (serviceCmd sshBin (resolvePort node)
            (resolveUser osUser node) addr (s.sudoFlag.getD false) s.method
            s.name)
          ∈ processNode exec sshBin rsyncBin osUser folders es services stF
              stS idn node addr) := by
  rw [processNode_probe_ok exec sshBin rsyncBin osUser folders es services
    stF stS idn node addr hprobe]
  refine ⟨?_, ?_, ?_, ?_⟩
  · exact List.mem_append_left _ (List.mem_append_right _
      (mem_folderLoop_of_mem hmem hsel
        (fail_logs_mem_processFolder exec rsyncBin (resolveUser osUser node)
          (resolvePort node) addr stF fid f hfail).2))
  · exact List.mem_append_left _ (List.mem_append_right _
      (mem_folderLoop_of_mem hmem hsel
        (fail_logs_mem_processFolder exec rsyncBin (resolveUser osUser node)
          (resolvePort node) addr stF fid f hfail).1))
  · intro gid g hg hgsel
    exact List.mem_append_left _ (List.mem_append_right _
      (mem_folderLoop_of_mem hg hgsel
        (runCmd_mem_processFolder exec rsyncBin (resolveUser osUser node)
          (resolvePort node) addr stF gid g)))
  · intro hes sid s hs
    subst hes
    rw [if_pos rfl]
    exact List.mem_append_right _
      (mem_serviceLoop_of_mem hs
        (runCmd_mem_processService exec sshBin (resolveUser osUser node)
          (resolvePort node) addr stS idn sid s))

/-- Witness for C7: folder `b` of three fails under `execFailB`, yet its
two error logs appear and folder `c`'s transfer and the `nginx` service
command are still attempted. -/
theorem claim_C7_witness :
    Event.log Level.error ("Skipped folder " ++ "b")
      ∈ processNode execFailB "ssh" "rsync" "u" foldersEx true servicesEx
          1 1 "n1" nodeAllSel "h1"
    ∧ Event.runCmd (rsyncCmd "rsync" (resolveUser "u" nodeAllSel)
        (resolvePort nodeAllSel) (resolveRsyncOptions folderC) folderC.path
        "h1" (resolveDest folderC))
      ∈ processNode execFailB "ssh" "rsync" "u" foldersEx true servicesEx
          1 1 "n1" nodeAllSel "h1"
    ∧ Event.runCmd (serviceCmd "ssh" (resolvePort nodeAllSel)
        (resolveUser "u" nodeAllSel) "h1" false "restart" "nginx")
      ∈ processNode execFailB "ssh" "rsync" "u" foldersEx true servicesEx
          1 1 "n1" nodeAllSel "h1" := by
  have h := claim_C7 execFailB "ssh" "rsync" "u" foldersEx true servicesEx
    1 1 "n1" nodeAllSel "h1" "b" folderB (by decide) (by decide) (by decide)
    (by decide)
  exact ⟨h.1, h.2.2.1 "c" folderC (by decide) (by decide),
    h.2.2.2 rfl "s1" (Service.mk "nginx" "restart" none) (by decide)⟩

/-- C8: a folder with no `dest` field is transferred to a destination
path equal to its `path` (the built rsync command targets
`addr:path`); a node with no `ssh-port` uses port 22; a node with no
`user` uses the invoking OS user. -/
theorem claim_C8 (osUser : String) (node : Node) (f : Folder)
    (exec : String → ExecResult) (rsyncBin user : String) (port : Nat)
    (addr : String) (stF : Nat) (fid : String) :
    (f.dest = none →
      resolveDest f = f.path
      ∧ Event.runCmd (rsyncCmd rsyncBin user port (resolveRsyncOptions f)
          f.path addr f.path)
        ∈ processFolder exec rsyncBin user port addr stF fid f)
    ∧ (node.sshPort = none → resolvePort node = 22)
    ∧ (node.user = none → resolveUser osUser node = osUser) := by
  refine ⟨?_, ?_, ?_⟩
  · intro h
    have hd : resolveDest f = f.path := by simp [resolveDest, h]
    refine ⟨hd, ?_⟩
    have hm := runCmd_mem_processFolder exec rsyncBin user port addr stF fid f
    rwa [hd] at hm
  · intro h
    simp [resolvePort, h]
  · intro h
    simp [resolveUser, h]

/-- Witness for C8: `folderA` has no `dest` and transfers to its own
path; `nodeScalarSel` has neither `ssh-port` nor `user` and gets port 22
and the invoking user. -/
theorem claim_C8_witness :
    resolveDest folderA = "/srv/a"
    ∧ Event.runCmd (rsyncCmd "rsync" "u" 22 "" "/srv/a" "h1" "/srv/a")
        ∈ processFolder execOk "rsync" "u" 22 "h1" 1 "a" folderA
    ∧ resolvePort nodeScalarSel = 22
    ∧ resolveUser "u" nodeScalarSel = "u" := by
  have h := claim_C8 "u" nodeScalarSel folderA execOk "rsync" "u" 22 "h1" 1
    "a"
  obtain ⟨h1, h2⟩ := h.1 rfl
  exact ⟨h1, h2, h.2.1 rfl, h.2.2 rfl⟩

/-- C3 (counterexample): the persistent log does not record every
message at its level.  Under the default options (no flags:
`log_level = "INFO"`, debug/foreground/quiet all false) a debug-level
`mylog` call — the script's own `Settings file loaded` — is filtered out
of the log file, and under `-q` (`log_level = "ERROR"`) the info-level
`Start execution` message is filtered out, because `-q`/`-d` change the
level handed to `logging.basicConfig`. -/
theorem claim_C3_counterexample :
    (mylog (levelThreshold (parseOpts []).loglevel) (parseOpts []).debug
        (parseOpts []).foreground (parseOpts []).quiet "debug"
        "Settings file loaded").1 = none
    ∧ (mylog (levelThreshold (parseOpts ["-q"]).loglevel)
        (parseOpts ["-q"]).debug (parseOpts ["-q"]).foreground
        (parseOpts ["-q"]).quiet "info" "Start execution").1 = none := by
  decide

/-- C3 (amended): every `mylog` call hands the message to the logging
module at the message's level in every combination of the
debug/foreground/quiet options — the console-echo logic never changes
what reaches the logging module — but the persistent log records the
message only when its level passes the configured file threshold, and
the `-d`/`-q` options move that threshold (`DEBUG`/`ERROR`; default
`INFO`), so those two options do affect the persistent log. -/
theorem claim_C3_amended :
    (∀ (threshold : Nat) (d f q : Bool) (lvl msg : String),
      (mylog threshold d f q lvl msg).1
        = loggingCall threshold (pyLevel lvl) msg)
    ∧ (parseOpts []).loglevel = "INFO"
    ∧ (parseOpts ["-d"]).loglevel = "DEBUG"
    ∧ (parseOpts ["-q"]).loglevel = "ERROR" := by
  refine ⟨?_, by decide, by decide, by decide⟩
  intro threshold d f q lvl msg
  cases hf : f <;> by_cases h1 : lvl = "info" <;> by_cases h2 : lvl = "error"
    <;> simp [mylog, pyLevel, hf, h1, h2]

/-- C4 (counterexample): a configuration whose `nodes` key is absent
entirely does not exit cleanly — line 156 (`config["nodes"]`) raises an
uncaught `KeyError` — refuting the claim that an absent `nodes` entry is
handled like a null one. -/
theorem claim_C4_counterexample :
    (runMain execOk "ssh" "rsync" "u" cfgNodesAbsent).2
      = Outcome.uncaughtKeyError "nodes"
    ∧ (runMain execOk "ssh" "rsync" "u" cfgNodesAbsent).2
      ≠ Outcome.exitOk := by
  decide

/-- C4 (amended): for every configuration whose `nodes` key is present
and maps to null, the run performs no orchestration: the trace is
exactly the `Start execution` and `Config file has not nodes. Exit`
info logs, the outcome is a clean `exit(0)`, and no external command is
ever invoked.  (An absent `nodes` key instead raises `KeyError`.) -/
theorem claim_C4_amended (exec : String → ExecResult)
    (sshBin rsyncBin osUser : String) (cfg : Config)
    (h : cfg.nodes = some none) :
    runMain exec sshBin rsyncBin osUser cfg =
      ([Event.log Level.info "Start execution",
        Event.log Level.info "Config file has not nodes. Exit\n"],
       Outcome.exitOk)
    ∧ ∀ c, Event.runCmd c ∉ (runMain exec sshBin rsyncBin osUser cfg).1 := by
  have heq : runMain exec sshBin rsyncBin osUser cfg =
      ([Event.log Level.info "Start execution",
        Event.log Level.info "Config file has not nodes. Exit\n"],
       Outcome.exitOk) := by
    simp [runMain, h]
  refine ⟨heq, ?_⟩
  intro c
  rw [heq]
  simp

/-- Witness for C4 (amended): the sample null-`nodes` configuration
exits cleanly after the two info logs. -/
theorem claim_C4_witness :
    runMain execOk "ssh" "rsync" "u" cfgNodesNull =
      ([Event.log Level.info "Start execution",
        Event.log Level.info "Config file has not nodes. Exit\n"],
       Outcome.exitOk) :=
  (claim_C4_amended execOk "ssh" "rsync" "u" cfgNodesNull rfl).1

/-- C10: a configuration lacking the top-level `nodes`, `folders` or
`enable-services` key, or whose node lacks `address`, ends in an
uncaught `KeyError` — an outcome distinct from both the clean exit and
the logged fatal exit — while `log_file` and the sleep times are merely
defaulted. -/
theorem claim_C10 (exec : String → ExecResult)
    (sshBin rsyncBin osUser : String) (cfg : Config) :
    (cfg.nodes = none →
      (runMain exec sshBin rsyncBin osUser cfg).2
        = Outcome.uncaughtKeyError "nodes")
    ∧ (∀ ns, cfg.nodes = some (some ns) → cfg.folders = none →
      (runMain exec sshBin rsyncBin osUser cfg).2
        = Outcome.uncaughtKeyError "folders")
    ∧ (∀ ns fl, cfg.nodes = some (some ns) → cfg.folders = some fl →
      cfg.enableServices = none →
      (runMain exec sshBin rsyncBin osUser cfg).2
        = Outcome.uncaughtKeyError "enable-services")
    ∧ (∀ idn node rest fl es,
      cfg.nodes = some (some ((idn, node) :: rest)) →
      cfg.folders = some fl → cfg.enableServices = some es →
      node.address = none →
      (runMain exec sshBin rsyncBin osUser cfg).2
        = Outcome.uncaughtKeyError "address")
    ∧ (∀ k, Outcome.uncaughtKeyError k ≠ Outcome.exitOk
        ∧ Outcome.uncaughtKeyError k ≠ Outcome.fatalExit)
    ∧ resolveLogFile none = "sync_nodes.log"
    ∧ resolveSleep none = 1 := by
  refine ⟨?_, ?_, ?_, ?_, ?_, rfl, rfl⟩
  · intro h
    simp [runMain, h]
  · intro ns h1 h2
    simp [runMain, h1, h2]
  · intro ns fl h1 h2 h3
    simp [runMain, h1, h2, h3]
  · intro idn node rest fl es h1 h2 h3 h4
    simp [runMain, h1, h2, h3, nodeSweep, h4]
  · intro k
    exact ⟨by simp, by simp⟩

/-- Witness for C10: each missing-key sample configuration ends in the
corresponding uncaught `KeyError`. -/
theorem claim_C10_witness :
    (runMain execOk "ssh" "rsync" "u" cfgNodesAbsent).2
      = Outcome.uncaughtKeyError "nodes"
    ∧ (runMain execOk "ssh" "rsync" "u" cfgNoFoldersKey).2
      = Outcome.uncaughtKeyError "folders"
    ∧ (runMain execOk "ssh" "rsync" "u" cfgNoEnableKey).2
      = Outcome.uncaughtKeyError "enable-services"
    ∧ (runMain execOk "ssh" "rsync" "u" cfgNoAddress).2
      = Outcome.uncaughtKeyError "address" :=
  ⟨(claim_C10 execOk "ssh" "rsync" "u" cfgNodesAbsent).1 rfl,
   (claim_C10 execOk "ssh" "rsync" "u" cfgNoFoldersKey).2.1
     [("n1", nodeScalarSel)] rfl rfl,
   (claim_C10 execOk "ssh" "rsync" "u" cfgNoEnableKey).2.2.1
     [("n1", nodeScalarSel)] foldersEx rfl rfl rfl,
   (claim_C10 execOk "ssh" "rsync" "u" cfgNoAddress).2.2.2.1
     "n1" nodeNoAddress [] foldersEx false rfl rfl rfl rfl⟩

end SyncNodes
